import Mathlib

/- Shallow embedding of src/src/components/page-annotation-view.ts
   (class PageAnnotationView).

   The overlay instance is modelled as a record of its observable state; the
   external annotation entities (RenderableAnnotation / AnnotationDict) are a
   map from numeric ids to records of their observable fields.  The source is
   single-threaded cooperative async code: every interleaving of destroy()
   with an in-flight render pass happens at an await boundary.  The model
   makes those boundaries explicit: the render pass takes a Boolean schedule
   saying at which await boundary destroy() runs.  A thrown JavaScript
   exception is an Except.error carrying the error kind together with the
   heap state at the throw point (a JS exception unwinds but leaves the heap
   as it was). -/

/-- An interaction callback installed on an annotation entity.  The closures
built in lines 109-117 of the source dispatch an AnnotSelectionRequestEvent
carrying the annotation, or an AnnotFocusRequestEvent carrying the annotation
or null; the model keeps that observable identity. -/
inductive Handler where
  | selectionRequest (a : Nat) : Handler
  | focusRequest (a : Option Nat) : Handler
deriving DecidableEq

/-- Observable state of one external annotation entity.  deleted,
lastRenderResult and the three callback slots are the fields the source
reads or writes; renderOutput is the render result the entity's renderAsync
would produce (external behaviour, a parameter of the model); installCount
and renderCount instrument how many times the overlay installed callbacks on
the entity and how many times it invoked the entity's renderAsync. -/
structure Annot where
  deleted : Bool
  lastRenderResult : Option Nat
  renderOutput : Option Nat
  onPointerDown : Option Handler
  onPointerEnter : Option Handler
  onPointerLeave : Option Handler
  installCount : Nat
  renderCount : Nat
deriving DecidableEq

/-- The heap of annotation entities, by id. -/
abbrev Env := Nat → Annot

/-- A child node of one of the two visual surfaces: the content fragment or
controls fragment of a render result, or the svg surface itself once it is
appended into the container (line 136). -/
inductive Frag where
  | controls (r : Nat) : Frag
  | content (r : Nat) : Frag
  | svgRoot : Frag
deriving DecidableEq

/-- Observable state of one PageAnnotationView instance: the destroyed flag,
whether the container reference has been nulled out (line 56), whether the
container is attached to th e host parent, the children of the container and
of the svg surface, the tracked-rendered set, whether the annotation-change
listener is subscribed on the event bus, and the construction-time page id
and viewBox. -/
structure ViewState where
  destroyed : Bool
  containerNull : Bool
  containerAttached : Bool
  containerChildren : List Frag
  svgChildren : List Frag
  rendered : List Nat
  listenerActive : Bool
  pageId : Nat
  viewbox : Int × Int × Int × Int
deriving DecidableEq

/-- A thrown JavaScript runtime error. -/
inductive JsErr where
  | typeError : JsErr
deriving DecidableEq

/-- The construction-time error of lines 26-28. -/
inductive CtorError where
  | invalidArgument : CtorError
deriving DecidableEq

structure PageInfo where
  id : Nat
deriving DecidableEq

structure Vec2 where
  x : Int
  y : Int
deriving DecidableEq

/-- Lines 25-49: the constructor throws when any of the three required
arguments is null or undefined, and otherwise builds the container and the
svg surface with viewBox (0, 0, x, y) tagged with the page id. -/
def construct (docService : Option Unit) (pageInfo : Option PageInfo)
    (pageDimensions : Option Vec2) : Except CtorError ViewState :=
  match docService, pageInfo, pageDimensions with
  | some _, some p, some d =>
      Except.ok { destroyed := false, containerNull := false,
                  containerAttached := false, containerChildren := [],
                  svgChildren := [], rendered := [], listenerActive := false,
                  pageId := p.id, viewbox := (0, 0, d.x, d.y) }
  | _, _, _ => Except.error CtorError.invalidArgument

/-- Pointwise update of the entity heap. -/
def updateEnv (env : Env) (a : Nat) (f : Annot → Annot) : Env :=
  fun b => if b = a then f (env b) else env b

/-- Lines 109-117: install the three interaction callbacks on entity a. -/
def installCallbacks (env : Env) (a : Nat) : Env :=
  updateEnv env a fun x =>
    { x with onPointerDown := some (Handler.selectionRequest a),
             onPointerEnter := some (Handler.focusRequest (some a)),
             onPointerLeave := some (Handler.focusRequest none),
             installCount := x.installCount + 1 }

/-- The entity's own renderAsync (external collaborator, spec section 6):
it produces the entity's render output, caches a produced result on the
entity as lastRenderResult (spec section 3), and is counted. -/
def renderAsync (env : Env) (a : Nat) : Env × Option Nat :=
  let out := (env a).renderOutput
  (updateEnv env a fun x =>
     { x with lastRenderResult := if out.isSome then out else x.lastRenderResult,
              renderCount := x.renderCount + 1 }, out)

/-- Lines 59-61 of destroy: clear the three callback slots of one entity. -/
def clearSlots (x : Annot) : Annot :=
  { x with onPointerDown := none, onPointerEnter := none, onPointerLeave := none }

/-- Lines 58-62: the rendered.forEach of destroy, clearing the slots of every
tracked entity. -/
def clearSlotsAll (env : Env) (l : List Nat) : Env :=
  l.foldl (fun e a => updateEnv e a clearSlots) env

/-- Lines 140-143: clear empties the two visual surfaces (innerHTML = "")
and touches nothing else. -/
def clear (st : ViewState) : ViewState :=
  { st with containerChildren := [], svgChildren := [] }

/-- Lines 66-70: remove detaches the container from its host when the
container reference is still alive (the optional chaining on line 68) and
unsubscribes the annotation-change listener from the event bus. -/
def remove (st : ViewState) : ViewState :=
  let st1 := if st.containerNull then st else { st with containerAttached := false }
  { st1 with listenerActive := false }

/-- Lines 52-64: destroy sets the destroyed flag, calls remove, nulls the
container reference, clears the three callback slots of every tracked
entity, and empties the tracked set. -/
def destroy (st : ViewState) (env : Env) : ViewState × Env :=
  let st1 := { st with destroyed := true }
  let st2 := remove st1
  let st3 := { st2 with containerNull := true }
  let env1 := clearSlotsAll env st.rendered
  ({ st3 with rendered := [] }, env1)

/-- Lines 106-121 of processAnnotation, up to and including the await of the
entity render: if the entity is not yet tracked, install the three callbacks
and render it; if it is tracked, reuse its cached lastRenderResult when
present and render it afresh otherwise.  Returns the updated entity heap and
the render result in hand. -/
def processAnnotationPhase1 (st : ViewState) (env : Env) (a : Nat) :
    Env × Option Nat :=
  if a ∈ st.rendered then
    match (env a).lastRenderResult with
    | some r => (env, some r)
    | none => renderAsync env a
  else
    renderAsync (installCallbacks env a) a

/-- Lines 123-127: the continuation that runs after the entity render
resolves.  When a result was produced and the overlay has not been destroyed
it tracks the entity and appends the controls fragment to the svg surface
and the content fragment to the container; otherwise it does nothing. -/
def processAnnotationPost (st : ViewState) (a : Nat) (r : Option Nat) :
    ViewState :=
  match r with
  | some f =>
      if st.destroyed then st
      else { st with rendered := st.rendered.insert a,
                     svgChildren := st.svgChildren ++ [Frag.controls f],
                     containerChildren := st.containerChildren ++ [Frag.content f] }
  | none => st

/-- One processAnnotation task with its await boundary made explicit: d says
whether destroy() runs while this entity render is being awaited (between
phase 1 resolving and the line 123 continuation). -/
def processAnnotationSched (d : Bool) (s : ViewState × Env) (a : Nat) :
    ViewState × Env :=
  let p := processAnnotationPhase1 s.1 s.2 a
  let s2 := if d then destroy s.1 p.1 else (s.1, p.1)
  (processAnnotationPost s2.1 a p.2, s2.2)

/-- Line 130: the fan-out over all annotations of the pass, one interleaving
at a time; ds schedules a destroy() at each task's await boundary. -/
def processList : List Nat → List Bool → ViewState × Env → ViewState × Env
  | [], _, s => s
  | a :: rest, ds, s =>
      processList rest ds.tail (processAnnotationSched (ds.headD false) s a)

/-- Lines 93-138: the render pass.  dFetch schedules a destroy() while the
per-page annotation fetch is being awaited; ds schedules destroys at the
per-annotation await boundaries.  fetch is what getPageAnnotationsAsync
resolves to: none models the service resolving to null/undefined, in which
case the .filter call on line 102 throws a TypeError (the || [] default on
line 103 applies to the filter result, which is always an array, so it never
fires).  A thrown error carries the heap state at the throw. -/
def renderAnnotationsAsync (dFetch : Bool) (ds : List Bool) (st : ViewState)
    (env : Env) (fetch : Option (List Nat)) :
    Except (JsErr × ViewState × Env) (ViewState × Env × Bool) :=
  if st.destroyed then Except.ok (st, env, false)
  else
    let st1 := clear st
    let s2 := if dFetch then destroy st1 env else (st1, env)
    match fetch with
    | none => Except.error (JsErr.typeError, s2.1, s2.2)
    | some l =>
        let annots := l.filter fun a => !((s2.2 a).deleted)
        let s3 := processList annots ds s2
        if s3.1.destroyed then Except.ok (s3.1, s3.2, false)
        else
          Except.ok ({ s3.1 with
                        containerChildren := s3.1.containerChildren ++ [Frag.svgRoot] },
                     s3.2, true)

/-- Lines 77-91: appendAsync.  No-op when already destroyed; otherwise it
optimistically attaches the container to the host, runs the render pass, and
on failure detaches the container (optional chaining, line 86) while on
success it subscribes the annotation-change listener.  An error thrown by
the render pass propagates (there is no catch). -/
def appendAsync (dFetch : Bool) (ds : List Bool) (st : ViewState) (env : Env)
    (fetch : Option (List Nat)) :
    Except (JsErr × ViewState × Env) (ViewState × Env) :=
  if st.destroyed then Except.ok (st, env)
  else
    match renderAnnotationsAsync dFetch ds { st with containerAttached := true }
        env fetch with
    | Except.error e => Except.error e
    | Except.ok (st2, env2, ok) =>
        if ok then Except.ok ({ st2 with listenerActive := true }, env2)
        else
          Except.ok (if st2.containerNull then (st2, env2)
                     else ({ st2 with containerAttached := false }, env2))

/-- View component of a render-pass outcome (on a throw, the heap state at
the throw point). -/
def viewOf (r : Except (JsErr × ViewState × Env) (ViewState × Env × Bool)) :
    ViewState :=
  match r with
  | Except.ok (s, _, _) => s
  | Except.error (_, s, _) => s

/-- Entity-heap component of a render-pass outcome. -/
def envOf (r : Except (JsErr × ViewState × Env) (ViewState × Env × Bool)) :
    Env :=
  match r with
  | Except.ok (_, e, _) => e
  | Except.error (_, _, e) => e

/-- Success Boolean of a render-pass outcome (false on a throw). -/
def okOf (r : Except (JsErr × ViewState × Env) (ViewState × Env × Bool)) :
    Bool :=
  match r with
  | Except.ok (_, _, b) => b
  | Except.error _ => false

/-- View component of an appendAsync outcome. -/
def viewOfAppend (r : Except (JsErr × ViewState × Env) (ViewState × Env)) :
    ViewState :=
  match r with
  | Except.ok (s, _) => s
  | Except.error (_, s, _) => s

/-- Whether an appendAsync outcome returned normally. -/
def appendOk (r : Except (JsErr × ViewState × Env) (ViewState × Env)) : Bool :=
  match r with
  | Except.ok _ => true
  | Except.error _ => false

/-- Whether a construction succeeded. -/
def ctorOk (r : Except CtorError ViewState) : Bool :=
  match r with
  | Except.ok _ => true
  | Except.error _ => false

/-- Demo entity heap: nothing deleted, nothing cached, entity n renders to
fragment n, no callbacks installed yet. -/
def demoEnv : Env := fun n =>
  { deleted := false, lastRenderResult := none, renderOutput := some n,
    onPointerDown := none, onPointerEnter := none, onPointerLeave := none,
    installCount := 0, renderCount := 0 }

/-- A freshly constructed overlay for page 0 of a 612 x 792 page. -/
def initView : ViewState :=
  { destroyed := false, containerNull := false, containerAttached := false,
    containerChildren := [], svgChildren := [], rendered := [],
    listenerActive := false, pageId := 0, viewbox := (0, 0, 612, 792) }

/-- First render pass of the two-pass scenario: the fetch yields entity 1. -/
def passOne : Except (JsErr × ViewState × Env) (ViewState × Env × Bool) :=
  renderAnnotationsAsync false [] initView demoEnv (some [1])

/-- Second render pass of the two-pass scenario: the fetch now yields only
entity 2. -/
def passTwo : Except (JsErr × ViewState × Env) (ViewState × Env × Bool) :=
  renderAnnotationsAsync false [] (viewOf passOne) (envOf passOne) (some [2])

/-- The render pass run inside appendAsync on a fresh overlay whose fetch
yields entity 1. -/
def passAppend : Except (JsErr × ViewState × Env) (ViewState × Env × Bool) :=
  renderAnnotationsAsync false [] { initView with containerAttached := true }
    demoEnv (some [1])

/-- An overlay that already tracks entity 7 (rendered in an earlier pass). -/
def stTracked : ViewState := { initView with rendered := [7] }

/-- The matching heap: entity 7 has its callbacks installed. -/
def envTracked : Env := installCallbacks demoEnv 7

/-- A render pass over stTracked whose fetch no longer mentions entity 7. -/
def passKeep : Except (JsErr × ViewState × Env) (ViewState × Env × Bool) :=
  renderAnnotationsAsync false [] stTracked envTracked (some [1])

/-- An overlay tracking two annotations, for the destroy scenario. -/
def stTwo : ViewState := { initView with rendered := [1, 2] }

/-- The matching heap: both tracked entities carry installed callbacks. -/
def envTwo : Env := installCallbacks (installCallbacks demoEnv 1) 2

/-- An overlay tracking entity 1 for the cache-reuse scenario. -/
def stOne : ViewState := { initView with rendered := [1] }

/-- A heap where every entity has a cached last render result and installed
callbacks, as after a completed first pass. -/
def envCached : Env := fun n =>
  { deleted := false, lastRenderResult := some 9, renderOutput := some n,
    onPointerDown := some (Handler.selectionRequest n),
    onPointerEnter := some (Handler.focusRequest (some n)),
    onPointerLeave := some (Handler.focusRequest none),
    installCount := 1, renderCount := 1 }

/-- Flag invariant threaded through a render pass that started on a live
overlay attached with value A: either no destroy has happened yet (flags
as at pass start), or a destroy has happened (and detached the container,
nulled its reference, and unsubscribed the listener). -/
def FlagsInv (A : Bool) (st : ViewState) : Prop :=
  st.listenerActive = false ∧
    ((st.destroyed = false ∧ st.containerNull = false ∧ st.containerAttached = A) ∨
      (st.destroyed = true ∧ st.containerNull = true ∧ st.containerAttached = false))

/-- State of the pass right after the fetch await resolves: the surfaces have
been cleared, and a destroy may have been interleaved during the fetch. -/
def passStart (dF : Bool) (st : ViewState) (env : Env) : ViewState × Env :=
  if dF then destroy (clear st) env else (clear st, env)

/-- State of the pass after the whole fan-out of line 130 has settled. -/
def passMain (dF : Bool) (ds : List Bool) (st : ViewState) (env : Env)
    (l : List Nat) : ViewState × Env :=
  processList (l.filter fun a => !(((passStart dF st env).2 a).deleted)) ds
    (passStart dF st env)

theorem updateEnv_same (env : Env) (a : Nat) (f : Annot → Annot) :
    updateEnv env a f a = f (env a) := by
  simp [updateEnv]

theorem updateEnv_other (env : Env) (a b : Nat) (f : Annot → Annot)
    (h : b ≠ a) : updateEnv env a f b = env b := by
  simp [updateEnv, h]

theorem clearSlotsAll_cons (env : Env) (b : Nat) (t : List Nat) :
    clearSlotsAll env (b :: t) = clearSlotsAll (updateEnv env b clearSlots) t := rfl

theorem clearSlotsAll_outside :
    ∀ (l : List Nat) (env : Env) (a : Nat), a ∉ l → clearSlotsAll env l a = env a := by
  intro l
  induction l with
  | nil => intro env a _; rfl
  | cons b t ih =>
      intro env a h
      have hb : a ≠ b := by
        intro e
        exact h (by rw [e]; exact List.mem_cons_self b t)
      have ht : a ∉ t := fun m => h (List.mem_cons_of_mem _ m)
      rw [clearSlotsAll_cons, ih _ a ht, updateEnv_other _ _ _ _ hb]

theorem clearSlotsAll_mem :
    ∀ (l : List Nat) (env : Env) (a : Nat), a ∈ l →
      ((clearSlotsAll env l) a).onPointerDown = none ∧
      ((clearSlotsAll env l) a).onPointerEnter = none ∧
      ((clearSlotsAll env l) a).onPointerLeave = none := by
  intro l
  induction l with
  | nil => intro env a h; cases h
  | cons b t ih =>
      intro env a h
      by_cases hm : a ∈ t
      · rw [clearSlotsAll_cons]; exact ih _ a hm
      · have hb : a = b := by
          rcases List.mem_cons.mp h with h1 | h2
          · exact h1
          · exact absurd h2 hm
        subst hb
        rw [clearSlotsAll_cons, clearSlotsAll_outside _ _ _ hm, updateEnv_same]
        exact ⟨rfl, rfl, rfl⟩

theorem clearSlotsAll_deleted :
    ∀ (l : List Nat) (env : Env) (a : Nat),
      ((clearSlotsAll env l) a).deleted = (env a).deleted := by
  intro l
  induction l with
  | nil => intro env a; rfl
  | cons b t ih =>
      intro env a
      rw [clearSlotsAll_cons, ih]
      by_cases hb : a = b
      · subst hb; rw [updateEnv_same]; rfl
      · rw [updateEnv_other _ _ _ _ hb]

theorem destroy_destroyed (st : ViewState) (env : Env) :
    (destroy st env).1.destroyed = true := by
  cases hb : st.containerNull <;> simp [destroy, remove, hb]

theorem destroy_rendered (st : ViewState) (env : Env) :
    (destroy st env).1.rendered = [] := by
  cases hb : st.containerNull <;> simp [destroy, remove, hb]

theorem destroy_containerNull (st : ViewState) (env : Env) :
    (destroy st env).1.containerNull = true := by
  cases hb : st.containerNull <;> simp [destroy, remove, hb]

theorem destroy_listenerActive (st : ViewState) (env : Env) :
    (destroy st env).1.listenerActive = false := by
  cases hb : st.containerNull <;> simp [destroy, remove, hb]

theorem destroy_containerChildren (st : ViewState) (env : Env) :
    (destroy st env).1.containerChildren = st.containerChildren := by
  cases hb : st.containerNull <;> simp [destroy, remove, hb]

theorem destroy_svgChildren (st : ViewState) (env : Env) :
    (destroy st env).1.svgChildren = st.svgChildren := by
  cases hb : st.containerNull <;> simp [destroy, remove, hb]

theorem destroy_attachedF (st : ViewState) (env : Env)
    (h : st.containerNull = false) :
    (destroy st env).1.containerAttached = false := by
  simp [destroy, remove, h]

theorem destroy_attachedT (st : ViewState) (env : Env)
    (h : st.containerNull = true) :
    (destroy st env).1.containerAttached = st.containerAttached := by
  simp [destroy, remove, h]

theorem destroy_snd (st : ViewState) (env : Env) :
    (destroy st env).2 = clearSlotsAll env st.rendered := rfl

theorem post_destroyed_eq (st : ViewState) (a : Nat) (r : Option Nat)
    (h : st.destroyed = true) : processAnnotationPost st a r = st := by
  cases r with
  | none => rfl
  | some f => simp [processAnnotationPost, h]

theorem post_flags (st : ViewState) (a : Nat) (r : Option Nat) :
    (processAnnotationPost st a r).destroyed = st.destroyed ∧
    (processAnnotationPost st a r).containerNull = st.containerNull ∧
    (processAnnotationPost st a r).containerAttached = st.containerAttached ∧
    (processAnnotationPost st a r).listenerActive = st.listenerActive := by
  cases r with
  | none => exact ⟨rfl, rfl, rfl, rfl⟩
  | some f => by_cases h : st.destroyed = true <;> simp [processAnnotationPost, h]

theorem post_rendered_sub (st : ViewState) (a : Nat) (r : Option Nat) (x : Nat)
    (h : x ∈ (processAnnotationPost st a r).rendered) :
    x ∈ st.rendered ∨ x = a := by
  cases r with
  | none => exact Or.inl h
  | some f =>
      by_cases hd : st.destroyed = true
      · rw [post_destroyed_eq st a _ hd] at h; exact Or.inl h
      · simp only [processAnnotationPost, hd, if_false, Bool.false_eq_true,
          ite_false] at h
        rcases List.mem_insert_iff.mp h with h1 | h2
        · exact Or.inr h1
        · exact Or.inl h2

theorem post_rendered_mono (st : ViewState) (a : Nat) (r : Option Nat) (x : Nat)
    (h : x ∈ st.rendered) : x ∈ (processAnnotationPost st a r).rendered := by
  cases r with
  | none => exact h
  | some f =>
      by_cases hd : st.destroyed = true
      · rw [post_destroyed_eq st a _ hd]; exact h
      · simp only [processAnnotationPost, hd, if_false, Bool.false_eq_true,
          ite_false]
        exact List.mem_insert_of_mem h

theorem psched_fst (d : Bool) (s : ViewState × Env) (a : Nat) :
    (processAnnotationSched d s a).1 =
      processAnnotationPost
        (if d then (destroy s.1 (processAnnotationPhase1 s.1 s.2 a).1).1 else s.1)
        a (processAnnotationPhase1 s.1 s.2 a).2 := by
  cases d <;> rfl

theorem psched_snd (d : Bool) (s : ViewState × Env) (a : Nat) :
    (processAnnotationSched d s a).2 =
      (if d then (destroy s.1 (processAnnotationPhase1 s.1 s.2 a).1).2
       else (processAnnotationPhase1 s.1 s.2 a).1) := by
  cases d <;> rfl

theorem psched_rendered_sub (d : Bool) (s : ViewState × Env) (a x : Nat)
    (h : x ∈ (processAnnotationSched d s a).1.rendered) :
    x ∈ s.1.rendered ∨ x = a := by
  rw [psched_fst] at h
  have h2 := post_rendered_sub _ _ _ _ h
  cases d with
  | false => exact h2
  | true =>
      rcases h2 with h2 | h2
      · rw [if_pos rfl, destroy_rendered] at h2; cases h2
      · exact Or.inr h2

theorem processList_rendered_sub :
    ∀ (l : List Nat) (ds : List Bool) (s : ViewState × Env) (x : Nat),
      x ∈ (processList l ds s).1.rendered → x ∈ s.1.rendered ∨ x ∈ l := by
  intro l
  induction l with
  | nil => intro ds s x h; exact Or.inl h
  | cons a t ih =>
      intro ds s x h
      rcases ih ds.tail _ x h with h1 | h1
      · rcases psched_rendered_sub _ _ _ _ h1 with h2 | h2
        · exact Or.inl h2
        · exact Or.inr (by rw [h2]; exact List.mem_cons_self a t)
      · exact Or.inr (List.mem_cons_of_mem a h1)

theorem destroy_FlagsInv (A : Bool) (st : ViewState) (env : Env)
    (h : FlagsInv A st) : FlagsInv A (destroy st env).1 := by
  refine ⟨destroy_listenerActive st env,
    Or.inr ⟨destroy_destroyed st env, destroy_containerNull st env, ?_⟩⟩
  rcases h.2 with ⟨_, hn, _⟩ | ⟨_, hn, ha⟩
  · exact destroy_attachedF st env hn
  · rw [destroy_attachedT st env hn]; exact ha

theorem clear_FlagsInv (A : Bool) (st : ViewState) (h : FlagsInv A st) :
    FlagsInv A (clear st) := h

theorem post_FlagsInv (A : Bool) (st : ViewState) (a : Nat) (r : Option Nat)
    (h : FlagsInv A st) : FlagsInv A (processAnnotationPost st a r) := by
  obtain ⟨h1, h2, h3, h4⟩ := post_flags st a r
  unfold FlagsInv at h ⊢
  rw [h1, h2, h3, h4]
  exact h

theorem psched_FlagsInv (A : Bool) (d : Bool) (s : ViewState × Env) (a : Nat)
    (h : FlagsInv A s.1) : FlagsInv A (processAnnotationSched d s a).1 := by
  rw [psched_fst]
  cases d with
  | false => exact post_FlagsInv A _ _ _ h
  | true => exact post_FlagsInv A _ _ _ (destroy_FlagsInv A _ _ h)

theorem processList_FlagsInv (A : Bool) :
    ∀ (l : List Nat) (ds : List Bool) (s : ViewState × Env),
      FlagsInv A s.1 → FlagsInv A (processList l ds s).1 := by
  intro l
  induction l with
  | nil => intro ds s h; exact h
  | cons a t ih => intro ds s h; exact ih ds.tail _ (psched_FlagsInv A _ _ _ h)

theorem render_tail_flags (s3 : ViewState × Env) (A : Bool)
    (hJ : FlagsInv A s3.1) (st' : ViewState) (env' : Env) (ok : Bool)
    (h : (if s3.1.destroyed then Except.ok (s3.1, s3.2, false)
          else Except.ok ({ s3.1 with
                  containerChildren := s3.1.containerChildren ++ [Frag.svgRoot] },
                s3.2, true))
         = (Except.ok (st', env', ok) :
             Except (JsErr × ViewState × Env) (ViewState × Env × Bool))) :
    st'.listenerActive = false ∧
      (ok = false → st'.containerAttached = false ∧ st'.containerNull = true) ∧
      (ok = true → st'.containerAttached = A) := by
  rcases hJ.2 with ⟨hd0, hn0, ha0⟩ | ⟨hd0, hn0, ha0⟩
  · rw [if_neg (by simp [hd0])] at h
    injection h with h1
    rw [Prod.mk.injEq, Prod.mk.injEq] at h1
    obtain ⟨h2, _, h4⟩ := h1
    subst h2; subst h4
    exact ⟨hJ.1, fun hx => Bool.noConfusion hx, fun _ => ha0⟩
  · rw [if_pos hd0] at h
    injection h with h1
    rw [Prod.mk.injEq, Prod.mk.injEq] at h1
    obtain ⟨h2, _, h4⟩ := h1
    subst h2; subst h4
    exact ⟨hJ.1, fun _ => ⟨ha0, hn0⟩, fun hx => Bool.noConfusion hx⟩

theorem render_ok_flags (dF : Bool) (ds : List Bool) (st : ViewState) (env : Env)
    (fetch : Option (List Nat)) (st' : ViewState) (env' : Env) (ok : Bool)
    (hd : st.destroyed = false) (hn : st.containerNull = false)
    (hl : st.listenerActive = false)
    (h : renderAnnotationsAsync dF ds st env fetch = Except.ok (st', env', ok)) :
    st'.listenerActive = false ∧
      (ok = false → st'.containerAttached = false ∧ st'.containerNull = true) ∧
      (ok = true → st'.containerAttached = st.containerAttached) := by
  have hJ2 : FlagsInv st.containerAttached
      ((if dF then destroy (clear st) env else (clear st, env)).1) := by
    cases dF with
    | false => exact ⟨hl, Or.inl ⟨hd, hn, rfl⟩⟩
    | true => exact destroy_FlagsInv _ _ _ ⟨hl, Or.inl ⟨hd, hn, rfl⟩⟩
  cases fetch with
  | none =>
      unfold renderAnnotationsAsync at h
      rw [if_neg (by simp [hd])] at h
      exact Except.noConfusion h
  | some l =>
      unfold renderAnnotationsAsync at h
      rw [if_neg (by simp [hd])] at h
      exact render_tail_flags _ _
        (processList_FlagsInv st.containerAttached _ ds _ hJ2) _ _ _ h

theorem render_eq_destroyed (dF : Bool) (ds : List Bool) (st : ViewState)
    (env : Env) (fetch : Option (List Nat)) (hd : st.destroyed = true) :
    renderAnnotationsAsync dF ds st env fetch = Except.ok (st, env, false) := by
  unfold renderAnnotationsAsync
  rw [if_pos hd]

theorem render_eq_none (dF : Bool) (ds : List Bool) (st : ViewState) (env : Env)
    (hd : st.destroyed = false) :
    renderAnnotationsAsync dF ds st env none =
      Except.error (JsErr.typeError, (passStart dF st env).1, (passStart dF st env).2) := by
  obtain ⟨d, cn, ca, cc, sc, r, la, pid, vb⟩ := st
  replace hd : d = false := hd
  subst hd
  cases dF <;> rfl

theorem render_eq_some (dF : Bool) (ds : List Bool) (st : ViewState) (env : Env)
    (l : List Nat) (hd : st.destroyed = false) :
    renderAnnotationsAsync dF ds st env (some l) =
      (if (passMain dF ds st env l).1.destroyed then
        Except.ok ((passMain dF ds st env l).1, (passMain dF ds st env l).2, false)
       else
        Except.ok ({ (passMain dF ds st env l).1 with
            containerChildren :=
              (passMain dF ds st env l).1.containerChildren ++ [Frag.svgRoot] },
          (passMain dF ds st env l).2, true)) := by
  obtain ⟨d, cn, ca, cc, sc, r, la, pid, vb⟩ := st
  replace hd : d = false := hd
  subst hd
  cases dF <;> rfl

theorem render_ok_dest (dF : Bool) (ds : List Bool) (st : ViewState) (env : Env)
    (l : List Nat) (st' : ViewState) (env' : Env) (ok : Bool)
    (hd : st.destroyed = false)
    (h : renderAnnotationsAsync dF ds st env (some l) = Except.ok (st', env', ok)) :
    st'.rendered = (passMain dF ds st env l).1.rendered ∧
      env' = (passMain dF ds st env l).2 := by
  rw [render_eq_some dF ds st env l hd] at h
  split at h <;>
    · injection h with h1
      rw [Prod.mk.injEq, Prod.mk.injEq] at h1
      obtain ⟨h2, h3, _⟩ := h1
      subst h2; subst h3
      exact ⟨rfl, rfl⟩

theorem phase1_slots (st : ViewState) (env : Env) (a b : Nat)
    (hb : b ∈ st.rendered) :
    ((processAnnotationPhase1 st env a).1 b).onPointerDown = (env b).onPointerDown ∧
    ((processAnnotationPhase1 st env a).1 b).onPointerEnter = (env b).onPointerEnter ∧
    ((processAnnotationPhase1 st env a).1 b).onPointerLeave = (env b).onPointerLeave := by
  unfold processAnnotationPhase1
  by_cases ha : a ∈ st.rendered
  · rw [if_pos ha]
    rcases hc : (env a).lastRenderResult with _ | r
    · by_cases hba : b = a
      · subst hba; simp [renderAsync, updateEnv]
      · simp [renderAsync, updateEnv, hba]
    · exact ⟨rfl, rfl, rfl⟩
  · rw [if_neg ha]
    have hba : b ≠ a := fun e => ha (e ▸ hb)
    simp [renderAsync, installCallbacks, updateEnv, hba]

theorem psched_keeps (s : ViewState × Env) (a b : Nat) (hb : b ∈ s.1.rendered) :
    b ∈ (processAnnotationSched false s a).1.rendered ∧
    ((processAnnotationSched false s a).2 b).onPointerDown = (s.2 b).onPointerDown ∧
    ((processAnnotationSched false s a).2 b).onPointerEnter = (s.2 b).onPointerEnter ∧
    ((processAnnotationSched false s a).2 b).onPointerLeave = (s.2 b).onPointerLeave := by
  refine ⟨?_, ?_⟩
  · exact post_rendered_mono _ _ _ _ hb
  · exact phase1_slots s.1 s.2 a b hb

theorem processList_keeps :
    ∀ (l : List Nat) (s : ViewState × Env) (b : Nat), b ∈ s.1.rendered →
      b ∈ (processList l [] s).1.rendered ∧
      ((processList l [] s).2 b).onPointerDown = (s.2 b).onPointerDown ∧
      ((processList l [] s).2 b).onPointerEnter = (s.2 b).onPointerEnter ∧
      ((processList l [] s).2 b).onPointerLeave = (s.2 b).onPointerLeave := by
  intro l
  induction l with
  | nil => intro s b hb; exact ⟨hb, rfl, rfl, rfl⟩
  | cons a t ih =>
      intro s b hb
      have hstep := psched_keeps s a b hb
      have hrec := ih (processAnnotationSched false s a) b hstep.1
      exact ⟨hrec.1, hrec.2.1.trans hstep.2.1, hrec.2.2.1.trans hstep.2.2.1,
        hrec.2.2.2.trans hstep.2.2.2⟩

theorem remove_of_null (st : ViewState) (h : st.containerNull = true) :
    remove st = { st with listenerActive := false } := by
  simp [remove, h]

theorem setListenerFalse_eta (st : ViewState) (h : st.listenerActive = false) :
    { st with listenerActive := false } = st := by
  obtain ⟨d, cn, ca, cc, sc, r, la, pid, vb⟩ := st
  simp only at h
  rw [h]

/-- C2: the claim says a null/absent fetch result is treated as an empty
list and the pass succeeds; on the code, line 102 calls .filter on the fetch
result before the line 103 default can apply, so a null fetch makes the pass
throw a TypeError instead (heap at the throw: surfaces cleared, nothing
rendered, no listener). -/
theorem claim_C2_null_fetch_throws :
    renderAnnotationsAsync false [] initView demoEnv none
      = Except.error (JsErr.typeError, clear initView, demoEnv) := rfl

/-- C8: the claim says that when the fetch yields nothing the render pass
returns false and appendAsync detaches the container; on the code the
TypeError thrown by line 102 propagates out of appendAsync uncaught, so the
container stays attached to the host (though indeed no bus listener was ever
subscribed). -/
theorem claim_C8_null_fetch_propagates :
    appendAsync false [] initView demoEnv none
        = Except.error (JsErr.typeError,
            clear { initView with containerAttached := true }, demoEnv) ∧
      (clear { initView with containerAttached := true }).containerAttached = true ∧
      (clear { initView with containerAttached := true }).listenerActive = false :=
  ⟨rfl, rfl, rfl⟩

/-- C1, counterexample: after a first pass whose fetch yields entity 1 and a
second pass whose fetch yields only entity 2, entity 1 is still in the
tracked-rendered set although it is not in the annotation list most recently
fetched, so the tracked set is not a subset of the last fetch. -/
theorem claim_C1_counterexample :
    okOf passOne = true ∧ okOf passTwo = true ∧
      List.filter (fun x => !((envOf passOne x).deleted)) [2] = [2] ∧
      1 ∈ (viewOf passTwo).rendered ∧ (1 : Nat) ∉ [2] := by
  decide

/-- C1, amended: a render pass only ever adds entities drawn from the list
it fetched (filtered of deleted entries), so at every point the tracked set
is a subset of the union of all lists fetched so far — not necessarily of
the most recent one — and after destroy() the tracked set is empty. -/
theorem claim_C1_rendered_subset_union :
    (∀ (dF : Bool) (ds : List Bool) (st : ViewState) (env : Env) (l : List Nat)
        (st' : ViewState) (env' : Env) (ok : Bool),
        renderAnnotationsAsync dF ds st env (some l) = Except.ok (st', env', ok) →
        ∀ a, a ∈ st'.rendered →
          a ∈ st.rendered ∨ a ∈ l.filter fun x => !((env x).deleted)) ∧
    (∀ (st : ViewState) (env : Env), (destroy st env).1.rendered = []) := by
  constructor
  · intro dF ds st env l st' env' ok h a ha
    by_cases hd : st.destroyed = true
    · rw [render_eq_destroyed dF ds st env (some l) hd] at h
      injection h with h1
      rw [Prod.mk.injEq, Prod.mk.injEq] at h1
      obtain ⟨h2, _, _⟩ := h1
      subst h2
      exact Or.inl ha
    · have hd' : st.destroyed = false := by
        cases hx : st.destroyed with
        | false => rfl
        | true => exact absurd hx hd
      obtain ⟨hr, _⟩ := render_ok_dest dF ds st env l st' env' ok hd' h
      rw [hr] at ha
      rcases processList_rendered_sub _ ds (passStart dF st env) a ha with h1 | h1
      · cases hdF : dF with
        | false =>
            rw [hdF] at h1
            exact Or.inl h1
        | true =>
            rw [hdF] at h1
            have hz : (passStart true st env).1.rendered = [] :=
              destroy_rendered (clear st) env
            rw [hz] at h1
            cases h1
      · obtain ⟨hal, hdel⟩ := List.mem_filter.mp h1
        refine Or.inr (List.mem_filter.mpr ⟨hal, ?_⟩)
        cases hdF : dF with
        | false =>
            rw [hdF] at hdel
            exact hdel
        | true =>
            rw [hdF] at hdel
            rw [← clearSlotsAll_deleted st.rendered env a]
            exact hdel
  · intro st env
    exact destroy_rendered st env

/-- C1, witness for the amended theorem: a concrete pass over a fresh
overlay fetching entity 1 keeps the tracked set inside that fetch, and a
concrete destroy empties the tracked set. -/
theorem claim_C1_rendered_subset_union_witness :
    (1 ∈ initView.rendered ∨ 1 ∈ List.filter (fun x => !((demoEnv x).deleted)) [1]) ∧
      (destroy initView demoEnv).1.rendered = [] :=
  ⟨claim_C1_rendered_subset_union.1 false [] initView demoEnv [1]
      (viewOf passOne) (envOf passOne) (okOf passOne) rfl 1 (by decide),
    claim_C1_rendered_subset_union.2 initView demoEnv⟩

/-- C9: construction succeeds exactly when the document service, the page
descriptor and the page-dimension vector are all present, and every
construction failure is the InvalidArgument error. -/
theorem claim_C9_constructor_validation :
    ∀ (ds : Option Unit) (pi : Option PageInfo) (pd : Option Vec2),
      (ctorOk (construct ds pi pd) = true ↔ (ds ≠ none ∧ pi ≠ none ∧ pd ≠ none)) ∧
      (construct ds pi pd = Except.error CtorError.invalidArgument ↔
        (ds = none ∨ pi = none ∨ pd = none)) := by
  intro ds pi pd
  cases ds <;> cases pi <;> cases pd <;> simp [construct, ctorOk]

/-- C9, witness: a fully supplied construction succeeds and a construction
missing the document service fails with InvalidArgument. -/
theorem claim_C9_constructor_validation_witness :
    ctorOk (construct (some ()) (some ⟨1⟩) (some ⟨2, 3⟩)) = true ∧
      construct none (some ⟨1⟩) (some ⟨2, 3⟩)
        = Except.error CtorError.invalidArgument :=
  ⟨(claim_C9_constructor_validation (some ()) (some ⟨1⟩) (some ⟨2, 3⟩)).1.mpr
      (by simp),
    (claim_C9_constructor_validation none (some ⟨1⟩) (some ⟨2, 3⟩)).2.mpr
      (by simp)⟩

/-- C3: when destroy() is interleaved while an entity render is being
awaited, the line 123 continuation discards the completed result: the entity
is not tracked, and neither the container children nor the svg children grow
beyond what destroy left (destroy does not touch the children lists), even
though the entity-level render ran to completion (its render count went
up). -/
theorem claim_C3_destroy_discards_late_renders :
    ∀ (st : ViewState) (env : Env) (a : Nat), a ∉ st.rendered →
      (processAnnotationSched true (st, env) a).1.rendered = [] ∧
      (processAnnotationSched true (st, env) a).1.containerChildren
          = st.containerChildren ∧
      (processAnnotationSched true (st, env) a).1.svgChildren = st.svgChildren ∧
      ((processAnnotationSched true (st, env) a).2 a).renderCount
          = (env a).renderCount + 1 := by
  intro st env a hna
  have h1 : (processAnnotationSched true (st, env) a).1
      = processAnnotationPost (destroy st (processAnnotationPhase1 st env a).1).1 a
          (processAnnotationPhase1 st env a).2 := rfl
  rw [h1, post_destroyed_eq _ _ _ (destroy_destroyed _ _)]
  refine ⟨destroy_rendered _ _, destroy_containerChildren _ _,
    destroy_svgChildren _ _, ?_⟩
  have h2 : (processAnnotationSched true (st, env) a).2
      = clearSlotsAll (processAnnotationPhase1 st env a).1 st.rendered := rfl
  rw [h2, clearSlotsAll_outside _ _ _ hna]
  unfold processAnnotationPhase1
  rw [if_neg hna]
  simp [renderAsync, installCallbacks, updateEnv]

/-- C3, witness: destroy interleaved with the render of fresh entity 3 on a
fresh overlay discards everything while the entity render still ran. -/
theorem claim_C3_destroy_discards_late_renders_witness :
    (processAnnotationSched true (initView, demoEnv) 3).1.rendered = [] ∧
      (processAnnotationSched true (initView, demoEnv) 3).1.containerChildren
          = initView.containerChildren ∧
      (processAnnotationSched true (initView, demoEnv) 3).1.svgChildren
          = initView.svgChildren ∧
      ((processAnnotationSched true (initView, demoEnv) 3).2 3).renderCount
          = (demoEnv 3).renderCount + 1 :=
  claim_C3_destroy_discards_late_renders initView demoEnv 3 (by decide)

/-- C4: once destroy() has run, appendAsync and renderAnnotationsAsync
return immediately without throwing (the destroyed-flag guards on lines 78
and 94) and leave the state untouched, and remove is a no-op on the
destroyed state (the container reference is null and the listener is already
unsubscribed). -/
theorem claim_C4_post_destroy_noop :
    ∀ (dF : Bool) (ds : List Bool) (st : ViewState) (env : Env)
      (fetch : Option (List Nat)),
      appendAsync dF ds (destroy st env).1 (destroy st env).2 fetch
          = Except.ok ((destroy st env).1, (destroy st env).2) ∧
      renderAnnotationsAsync dF ds (destroy st env).1 (destroy st env).2 fetch
          = Except.ok ((destroy st env).1, (destroy st env).2, false) ∧
      remove (destroy st env).1 = (destroy st env).1 := by
  intro dF ds st env fetch
  refine ⟨?_, ?_, ?_⟩
  · unfold appendAsync
    rw [if_pos (destroy_destroyed st env)]
  · exact render_eq_destroyed dF ds _ _ fetch (destroy_destroyed st env)
  · rw [remove_of_null _ (destroy_containerNull st env)]
    exact setListenerFalse_eta _ (destroy_listenerActive st env)

/-- C5: destroy clears all three interaction-callback slots of every entity
in the tracked-rendered set and leaves the tracked set empty. -/
theorem claim_C5_destroy_clears_callbacks :
    ∀ (st : ViewState) (env : Env) (a : Nat), a ∈ st.rendered →
      ((destroy st env).2 a).onPointerDown = none ∧
      ((destroy st env).2 a).onPointerEnter = none ∧
      ((destroy st env).2 a).onPointerLeave = none ∧
      (destroy st env).1.rendered = [] := by
  intro st env a ha
  obtain ⟨h1, h2, h3⟩ := clearSlotsAll_mem st.rendered env a ha
  exact ⟨h1, h2, h3, destroy_rendered st env⟩

/-- C5, witness: destroying an overlay tracking the two annotations 1 and 2
nulls all six callback slots and empties the tracked set. -/
theorem claim_C5_destroy_clears_callbacks_witness :
    ((destroy stTwo envTwo).2 1).onPointerDown = none ∧
      ((destroy stTwo envTwo).2 1).onPointerEnter = none ∧
      ((destroy stTwo envTwo).2 1).onPointerLeave = none ∧
      ((destroy stTwo envTwo).2 2).onPointerDown = none ∧
      ((destroy stTwo envTwo).2 2).onPointerEnter = none ∧
      ((destroy stTwo envTwo).2 2).onPointerLeave = none ∧
      (destroy stTwo envTwo).1.rendered = [] := by
  obtain ⟨h1, h2, h3, h4⟩ := claim_C5_destroy_clears_callbacks stTwo envTwo 1 (by decide)
  obtain ⟨h5, h6, h7, _⟩ := claim_C5_destroy_clears_callbacks stTwo envTwo 2 (by decide)
  exact ⟨h1, h2, h3, h5, h6, h7, h4⟩

/-- C6: for an entity already tracked when a pass processes it again, the
line 107 membership test makes the pass skip callback installation; when a
cached last render result is present the entity heap is completely
untouched (the cache is reused, renderAsync is not invoked), and only when
no cache is present is a fresh render invoked — still without
re-installing callbacks. -/
theorem claim_C6_tracked_cache_reuse :
    ∀ (st : ViewState) (env : Env) (a : Nat), a ∈ st.rendered →
      (((env a).lastRenderResult).isSome = true →
        (processAnnotationSched false (st, env) a).2 = env) ∧
      ((env a).lastRenderResult = none →
        ((processAnnotationSched false (st, env) a).2 a).installCount
            = (env a).installCount ∧
        ((processAnnotationSched false (st, env) a).2 a).renderCount
            = (env a).renderCount + 1) := by
  intro st env a ha
  have hs : (processAnnotationSched false (st, env) a).2
      = (processAnnotationPhase1 st env a).1 := rfl
  constructor
  · intro hsome
    obtain ⟨r, hr⟩ := Option.isSome_iff_exists.mp hsome
    rw [hs]
    unfold processAnnotationPhase1
    rw [if_pos ha, hr]
  · intro hnone
    rw [hs]
    unfold processAnnotationPhase1
    rw [if_pos ha, hnone]
    constructor <;> simp [renderAsync, updateEnv]

/-- C6, witness: a second pass over tracked entity 1 with a cached result
leaves the entity heap exactly as it was — no new callbacks, no render. -/
theorem claim_C6_tracked_cache_reuse_witness :
    (processAnnotationSched false (stOne, envCached) 1).2 = envCached :=
  (claim_C6_tracked_cache_reuse stOne envCached 1 (by decide)).1 (by decide)

/-- C7: on a live overlay with no active listener, whenever the inner render
pass returns false appendAsync ends with the container detached from the
host and no bus listener subscribed, and whenever it returns true appendAsync
ends with the annotation-change listener subscribed. -/
theorem claim_C7_append_follows_render_outcome :
    ∀ (dF : Bool) (ds : List Bool) (st : ViewState) (env : Env)
      (fetch : Option (List Nat)) (st' : ViewState) (env' : Env) (ok : Bool),
      st.destroyed = false → st.listenerActive = false → st.containerNull = false →
      renderAnnotationsAsync dF ds { st with containerAttached := true } env fetch
          = Except.ok (st', env', ok) →
      appendOk (appendAsync dF ds st env fetch) = true ∧
        (ok = false →
          (viewOfAppend (appendAsync dF ds st env fetch)).containerAttached = false ∧
          (viewOfAppend (appendAsync dF ds st env fetch)).listenerActive = false) ∧
        (ok = true →
          (viewOfAppend (appendAsync dF ds st env fetch)).listenerActive = true) := by
  intro dF ds st env fetch st' env' ok hd hl hn h
  have hflags := render_ok_flags dF ds { st with containerAttached := true } env
    fetch st' env' ok (by exact hd) (by exact hn) (by exact hl) h
  have happ : appendAsync dF ds st env fetch =
      (if ok then Except.ok ({ st' with listenerActive := true }, env')
       else Except.ok (if st'.containerNull then (st', env')
             else ({ st' with containerAttached := false }, env'))) := by
    unfold appendAsync
    rw [if_neg (by simp [hd]), h]
  cases ok with
  | true =>
      rw [if_pos rfl] at happ
      rw [happ]
      exact ⟨rfl, fun hx => Bool.noConfusion hx, fun _ => rfl⟩
  | false =>
      rw [if_neg (by simp)] at happ
      obtain ⟨hL, hF, _⟩ := hflags
      obtain ⟨hca, hcn⟩ := hF rfl
      rw [if_pos hcn] at happ
      rw [happ]
      exact ⟨rfl, fun _ => ⟨hca, hL⟩, fun hx => Bool.noConfusion hx⟩

/-- C7, witness: a successful append on a fresh overlay whose fetch yields
entity 1 returns normally and ends with the listener subscribed. -/
theorem claim_C7_append_follows_render_outcome_witness :
    appendOk (appendAsync false [] initView demoEnv (some [1])) = true ∧
      (viewOfAppend (appendAsync false [] initView demoEnv (some [1]))).listenerActive
        = true := by
  have h := claim_C7_append_follows_render_outcome false [] initView demoEnv
    (some [1]) (viewOf passAppend) (envOf passAppend) (okOf passAppend)
    rfl rfl rfl rfl
  exact ⟨h.1, h.2.2 (by decide)⟩

/-- C10: the tracked-rendered set is monotone apart from destroy: clear and
remove leave it untouched, and a render pass (with no interleaved destroy)
keeps every previously tracked entity in the set with its three callback
slots exactly as they were — even when the entity is absent from, or marked
deleted in, the pass's fetch. -/
theorem claim_C10_rendered_monotone :
    (∀ st : ViewState, (clear st).rendered = st.rendered) ∧
      (∀ st : ViewState, (remove st).rendered = st.rendered) ∧
      (∀ (st : ViewState) (env : Env) (fetch : Option (List Nat))
          (st' : ViewState) (env' : Env) (ok : Bool),
          renderAnnotationsAsync false [] st env fetch = Except.ok (st', env', ok) →
          ∀ a, a ∈ st.rendered →
            a ∈ st'.rendered ∧
            (env' a).onPointerDown = (env a).onPointerDown ∧
            (env' a).onPointerEnter = (env a).onPointerEnter ∧
            (env' a).onPointerLeave = (env a).onPointerLeave) := by
  refine ⟨fun st => rfl, ?_, ?_⟩
  · intro st
    cases hb : st.containerNull <;> simp [remove, hb]
  · intro st env fetch st' env' ok h a ha
    by_cases hd : st.destroyed = true
    · rw [render_eq_destroyed false [] st env fetch hd] at h
      injection h with h1
      rw [Prod.mk.injEq, Prod.mk.injEq] at h1
      obtain ⟨h2, h3, _⟩ := h1
      subst h2; subst h3
      exact ⟨ha, rfl, rfl, rfl⟩
    · have hd' : st.destroyed = false := by
        cases hx : st.destroyed with
        | false => rfl
        | true => exact absurd hx hd
      cases fetch with
      | none =>
          rw [render_eq_none false [] st env hd'] at h
          exact Except.noConfusion h
      | some l =>
          obtain ⟨hr, he⟩ := render_ok_dest false [] st env l st' env' ok hd' h
          have hk := processList_keeps
            (l.filter fun x => !(((passStart false st env).2 x).deleted))
            (passStart false st env) a (by exact ha)
          refine ⟨?_, ?_, ?_, ?_⟩
          · rw [hr]; exact hk.1
          · rw [he]; exact hk.2.1
          · rw [he]; exact hk.2.2.1
          · rw [he]; exact hk.2.2.2

/-- C10, witness: a pass over an overlay tracking entity 7 whose fetch only
yields entity 1 keeps entity 7 tracked with its installed callbacks. -/
theorem claim_C10_rendered_monotone_witness :
    (clear stTracked).rendered = stTracked.rendered ∧
      (remove stTracked).rendered = stTracked.rendered ∧
      (7 ∈ (viewOf passKeep).rendered ∧
        ((envOf passKeep) 7).onPointerDown = (envTracked 7).onPointerDown ∧
        ((envOf passKeep) 7).onPointerEnter = (envTracked 7).onPointerEnter ∧
        ((envOf passKeep) 7).onPointerLeave = (envTracked 7).onPointerLeave) :=
  ⟨claim_C10_rendered_monotone.1 stTracked,
    claim_C10_rendered_monotone.2.1 stTracked,
    claim_C10_rendered_monotone.2.2 stTracked envTracked (some [1])
      (viewOf passKeep) (envOf passKeep) (okOf passKeep) rfl 7 (by decide)⟩
